import Mathlib

/-!
Shallow embedding of the transaction-engine repository
(src/lib.rs, src/account.rs, src/transaction.rs, src/engine.rs).

`Amount` in the source is the unsigned binary fixed-point type
`fixed::types::U50F14` (a `u64` holding the value scaled by `2^14`);
transaction amounts are parsed as `fixed::types::U51F13`.  Amounts are
embedded as `Nat` raw values (the number of fractional units), and every
plain `+`/`+=` of the source is embedded as u64 wrapping addition
(`% 2^64`), the release-build behaviour of the underlying integer type;
`checked_sub` never underflows and needs no reduction.  The fixed-point
representation itself (number of fractional bits, rounding on parse) is
modelled separately further below for the precision claims.

Rust mutation is embedded as explicit state passing: every `&mut self`
method becomes a function from the receiver to a pair of the `Result`
value and the receiver's state at the point of return, so that early
returns (`?`) propagate the state exactly as the code leaves it.
-/

/- `Amount` (the raw fixed-point value) is embedded directly as `Nat`:
a type synonym would obscure the arithmetic from the decision procedures,
so only the subtraction helper keeps the source's `Amount` name. -/

abbrev AccountId : Type := Nat

abbrev TransactionId : Type := Nat

/-- Rust `U50F14::checked_sub` / `U51F13::checked_sub`: `None` exactly when the
subtrahend exceeds the minuend (the value would go below zero). -/
def Amount.checked_sub (a b : Nat) : Option Nat :=
  if b ≤ a then some (a - b) else none

/-- Release-build semantics of the plain `+`/`+=` operators on the
u64-backed fixed-point type: the raw sum wraps at `2^64`. -/
def Amount.wrapping_add (a b : Nat) : Nat :=
  (a + b) % 2 ^ 64

/-- Error type `AccountError` from src/account.rs. -/
inductive AccountError : Type where
  | Locked : AccountError
  | InsufficientFunds : AccountError
deriving DecidableEq, Repr

/-- Structure `Account` from src/account.rs: id, available funds, held funds, lock flag. -/
structure Account : Type where
  id : AccountId
  available : Nat
  held : Nat
  locked : Bool
deriving DecidableEq, Repr

namespace Account

/-- Rust `Account::new`: a fresh account with zero balances, unlocked. -/
def new (id : AccountId) : Account :=
  { id := id, available := 0, held := 0, locked := false }

/-- Rust `Account::total`: the sum of available and held funds (derived
view, computed with the wrapping u64 addition of the raw values). -/
def total (a : Account) : Nat :=
  Amount.wrapping_add a.available a.held

/-- Rust `Account::check_locked`. -/
def check_locked (a : Account) : Except AccountError Unit :=
  match a.locked with
  | false => Except.ok ()
  | true => Except.error AccountError.Locked

/-- Rust `Account::deposit`: fail if locked, else `available += amount`
(wrapping in release builds). -/
def deposit (a : Account) (amount : Nat) : Except AccountError Unit × Account :=
  match a.check_locked with
  | Except.error e => (Except.error e, a)
  | Except.ok _ =>
    (Except.ok (), { a with available := Amount.wrapping_add a.available amount })

/-- Rust `Account::withdrawal`: fail if locked, else checked-subtract from `available`. -/
def withdrawal (a : Account) (amount : Nat) : Except AccountError Unit × Account :=
  match a.check_locked with
  | Except.error e => (Except.error e, a)
  | Except.ok _ =>
    match Amount.checked_sub a.available amount with
    | none => (Except.error AccountError.InsufficientFunds, a)
    | some v => (Except.ok (), { a with available := v })

/-- Rust `Account::hold_back`: fail if locked, else checked-subtract from
`available` and credit `held`.  The Rust `?` fires before either field is
assigned, so on failure the state returned is the receiver untouched. -/
def hold_back (a : Account) (amount : Nat) : Except AccountError Unit × Account :=
  match a.check_locked with
  | Except.error e => (Except.error e, a)
  | Except.ok _ =>
    match Amount.checked_sub a.available amount with
    | none => (Except.error AccountError.InsufficientFunds, a)
    | some v =>
      let a := { a with available := v }
      (Except.ok (), { a with held := Amount.wrapping_add a.held amount })

/-- Rust `Account::set_free`: fail if locked, else checked-subtract from `held`
and credit `available`. -/
def set_free (a : Account) (amount : Nat) : Except AccountError Unit × Account :=
  match a.check_locked with
  | Except.error e => (Except.error e, a)
  | Except.ok _ =>
    match Amount.checked_sub a.held amount with
    | none => (Except.error AccountError.InsufficientFunds, a)
    | some v =>
      let a := { a with held := v }
      (Except.ok (), { a with available := Amount.wrapping_add a.available amount })

/-- Rust `Account::charge_back`: fail if locked, else checked-subtract from
`held` and set `locked` (available untouched). -/
def charge_back (a : Account) (amount : Nat) : Except AccountError Unit × Account :=
  match a.check_locked with
  | Except.error e => (Except.error e, a)
  | Except.ok _ =>
    match Amount.checked_sub a.held amount with
    | none => (Except.error AccountError.InsufficientFunds, a)
    | some v =>
      let a := { a with held := v }
      (Except.ok (), { a with locked := true })

end Account

example : ((Account.new 0).deposit 100).2.available = 100 := by decide
example : ((Account.new 0).withdrawal 5).1 = Except.error AccountError.InsufficientFunds := rfl

/-- Enum `TransactionType` from src/transaction.rs. -/
inductive TransactionType : Type where
  | Deposit : TransactionType
  | Withdrawal : TransactionType
  | Dispute : TransactionType
  | Resolve : TransactionType
  | Chargeback : TransactionType
deriving DecidableEq, Repr

/-- Structure `Transaction` from src/transaction.rs: id (`tx`), type, client, optional
amount (populated only for deposits and withdrawals in well-formed input). -/
structure Transaction : Type where
  id : TransactionId
  transaction_type : TransactionType
  client : AccountId
  amount : Option Nat
deriving DecidableEq, Repr

/-- Error type `TransactionError` from src/engine.rs. -/
inductive TransactionError : Type where
  | Account : AccountError → TransactionError
  | TransactionNotFound : TransactionError
  | TransactionAmountNotSpecified : TransactionError
  | DuplicateDispute : TransactionError
  | UnknownDispute : TransactionError
  | DuplicateTransaction : TransactionError
  | ImpossibleDispute : TransactionError
deriving DecidableEq, Repr

/-- Structure `TransactionEngine` from src/engine.rs.  The `HashMap`s become total
functions to `Option`, the `HashSet` its characteristic function. -/
structure TransactionEngine : Type where
  accounts : AccountId → Option Account
  transactions : TransactionId → Option Transaction
  disputes : TransactionId → Bool

namespace TransactionEngine

/-- Rust `TransactionEngine::new`: all maps empty. -/
def new : TransactionEngine :=
  { accounts := fun _ => none, transactions := fun _ => none, disputes := fun _ => false }

/-- Conversion `TransactionError::from(AccountError)` — the `#[from]` conversion that
the `?` operator applies to account-level errors. -/
def liftAccErr : Except AccountError Unit → Except TransactionError Unit
  | Except.ok _ => Except.ok ()
  | Except.error e => Except.error (TransactionError.Account e)

/-- The tail of every account call in `handle_transaction`: the account at
`cid` (a `&mut` borrow into the map) holds whatever state the operation
left behind, and the operation's error, if any, propagates lifted. -/
def accountCall (e : TransactionEngine) (cid : AccountId)
    (r : Except AccountError Unit × Account) : Except TransactionError Unit × TransactionEngine :=
  (liftAccErr r.1,
   { e with accounts := fun j => if j = cid then some r.2 else e.accounts j })

/-- Rust `TransactionEngine::save_transaction`: deposit/withdrawal records are
inserted into the log keyed by their id, a duplicate id is rejected;
every other record type is a no-op. -/
def save_transaction (e : TransactionEngine) (t : Transaction) :
    Except TransactionError Unit × TransactionEngine :=
  match t.transaction_type with
  | TransactionType.Deposit | TransactionType.Withdrawal =>
    match e.transactions t.id with
    | none =>
      (Except.ok (),
       { e with transactions := fun j => if j = t.id then some t else e.transactions j })
    | some _ => (Except.error TransactionError.DuplicateTransaction, e)
  | _ => (Except.ok (), e)

/-- Rust `TransactionEngine::handle_transaction`, statement by statement:
save the record (deposit/withdrawal only), look the record's id up in the
log, require an amount on the logged transaction, ensure the logged
transaction's client has an account (`entry(..).or_insert_with(..)`), then
dispatch on the incoming record's type. -/
def handle_transaction (e : TransactionEngine) (t : Transaction) :
    Except TransactionError Unit × TransactionEngine :=
  let transaction_id := t.id
  let transaction_type := t.transaction_type
  let s := save_transaction e t
  match s.1 with
  | Except.error err => (Except.error err, s.2)
  | Except.ok _ =>
    let e := s.2
    match e.transactions transaction_id with
    | none => (Except.error TransactionError.TransactionNotFound, e)
    | some tr =>
      match tr.amount with
      | none => (Except.error TransactionError.TransactionAmountNotSpecified, e)
      | some amount =>
        let account := (e.accounts tr.client).getD (Account.new tr.client)
        let e := { e with accounts := fun j => if j = tr.client then some account else e.accounts j }
        match transaction_type with
        | TransactionType.Deposit => accountCall e tr.client (account.deposit amount)
        | TransactionType.Withdrawal => accountCall e tr.client (account.withdrawal amount)
        | TransactionType.Dispute =>
          if tr.transaction_type ≠ TransactionType.Deposit then
            (Except.error TransactionError.ImpossibleDispute, e)
          else if e.disputes tr.id then
            (Except.error TransactionError.DuplicateDispute, e)
          else
            let e := { e with disputes := fun j => if j = tr.id then true else e.disputes j }
            accountCall e tr.client (account.hold_back amount)
        | TransactionType.Resolve =>
          if e.disputes tr.id then
            let e := { e with disputes := fun j => if j = tr.id then false else e.disputes j }
            accountCall e tr.client (account.set_free amount)
          else (Except.error TransactionError.UnknownDispute, e)
        | TransactionType.Chargeback =>
          if e.disputes tr.id then
            let e := { e with disputes := fun j => if j = tr.id then false else e.disputes j }
            let r := account.charge_back amount
            let e := { e with accounts := fun j => if j = tr.client then some r.2 else e.accounts j }
            match r.1 with
            | Except.error err => (Except.error (TransactionError.Account err), e)
            | Except.ok _ =>
              (Except.ok (),
               { e with transactions := fun j => if j = tr.id then none else e.transactions j })
          else (Except.error TransactionError.UnknownDispute, e)

end TransactionEngine

section EngineExamples

example :
    (TransactionEngine.new.handle_transaction
      { id := 1, transaction_type := TransactionType.Deposit, client := 1, amount := some 50 }
    ).2.accounts 1 = some { id := 1, available := 50, held := 0, locked := false } := rfl

example :
    (TransactionEngine.new.handle_transaction
      { id := 1, transaction_type := TransactionType.Resolve, client := 1, amount := none }
    ).1 = Except.error TransactionError.TransactionNotFound := rfl

end EngineExamples

/-! ### Helper lemmas: failed account operations return the receiver untouched -/

theorem Account.deposit_error_eq (a : Account) (amt : Nat) (e : AccountError)
    (h : (a.deposit amt).1 = Except.error e) : (a.deposit amt).2 = a := by
  cases hl : a.locked with
  | true => simp [Account.deposit, Account.check_locked, hl]
  | false => simp [Account.deposit, Account.check_locked, hl] at h

theorem Account.withdrawal_error_eq (a : Account) (amt : Nat) (e : AccountError)
    (h : (a.withdrawal amt).1 = Except.error e) : (a.withdrawal amt).2 = a := by
  cases hl : a.locked with
  | true => simp [Account.withdrawal, Account.check_locked, hl]
  | false =>
    cases hs : Amount.checked_sub a.available amt with
    | none => simp [Account.withdrawal, Account.check_locked, hl, hs]
    | some v => simp [Account.withdrawal, Account.check_locked, hl, hs] at h

theorem Account.hold_back_error_eq (a : Account) (amt : Nat) (e : AccountError)
    (h : (a.hold_back amt).1 = Except.error e) : (a.hold_back amt).2 = a := by
  cases hl : a.locked with
  | true => simp [Account.hold_back, Account.check_locked, hl]
  | false =>
    cases hs : Amount.checked_sub a.available amt with
    | none => simp [Account.hold_back, Account.check_locked, hl, hs]
    | some v => simp [Account.hold_back, Account.check_locked, hl, hs] at h

theorem Account.set_free_error_eq (a : Account) (amt : Nat) (e : AccountError)
    (h : (a.set_free amt).1 = Except.error e) : (a.set_free amt).2 = a := by
  cases hl : a.locked with
  | true => simp [Account.set_free, Account.check_locked, hl]
  | false =>
    cases hs : Amount.checked_sub a.held amt with
    | none => simp [Account.set_free, Account.check_locked, hl, hs]
    | some v => simp [Account.set_free, Account.check_locked, hl, hs] at h

theorem Account.charge_back_error_eq (a : Account) (amt : Nat) (e : AccountError)
    (h : (a.charge_back amt).1 = Except.error e) : (a.charge_back amt).2 = a := by
  cases hl : a.locked with
  | true => simp [Account.charge_back, Account.check_locked, hl]
  | false =>
    cases hs : Amount.checked_sub a.held amt with
    | none => simp [Account.charge_back, Account.check_locked, hl, hs]
    | some v => simp [Account.charge_back, Account.check_locked, hl, hs] at h

/-! ### Reachable account states -/

/-- The accounts reachable from `Account::new` by any sequence of the five
operations, whether each call succeeds or fails (the second component is
the state the operation leaves behind in either case). -/
inductive ReachableAccount : Account → Prop where
  | base (id : AccountId) : ReachableAccount (Account.new id)
  | dep (a : Account) (amt : Nat) :
      ReachableAccount a → ReachableAccount (a.deposit amt).2
  | wd (a : Account) (amt : Nat) :
      ReachableAccount a → ReachableAccount (a.withdrawal amt).2
  | hold (a : Account) (amt : Nat) :
      ReachableAccount a → ReachableAccount (a.hold_back amt).2
  | free (a : Account) (amt : Nat) :
      ReachableAccount a → ReachableAccount (a.set_free amt).2
  | cb (a : Account) (amt : Nat) :
      ReachableAccount a → ReachableAccount (a.charge_back amt).2

theorem Amount.checked_sub_le (a b c : Nat) (h : Amount.checked_sub a b = some c) :
    c ≤ a := by
  unfold Amount.checked_sub at h
  split_ifs at h
  injection h with h2
  omega

theorem Account.deposit_lt (a : Account) (amt : Nat)
    (h : a.available < 2 ^ 64 ∧ a.held < 2 ^ 64) :
    ((a.deposit amt).2).available < 2 ^ 64 ∧ ((a.deposit amt).2).held < 2 ^ 64 := by
  cases hl : a.locked with
  | true => simpa [Account.deposit, Account.check_locked, hl] using h
  | false =>
    have hstep : (a.deposit amt).2
        = { a with available := Amount.wrapping_add a.available amt } := by
      simp [Account.deposit, Account.check_locked, hl]
    rw [hstep]
    exact ⟨Nat.mod_lt _ (by norm_num), h.2⟩

theorem Account.withdrawal_lt (a : Account) (amt : Nat)
    (h : a.available < 2 ^ 64 ∧ a.held < 2 ^ 64) :
    ((a.withdrawal amt).2).available < 2 ^ 64 ∧ ((a.withdrawal amt).2).held < 2 ^ 64 := by
  cases hl : a.locked with
  | true => simpa [Account.withdrawal, Account.check_locked, hl] using h
  | false =>
    cases hs : Amount.checked_sub a.available amt with
    | none => simpa [Account.withdrawal, Account.check_locked, hl, hs] using h
    | some v =>
      have hv := Amount.checked_sub_le a.available amt v hs
      have hstep : (a.withdrawal amt).2 = { a with available := v } := by
        simp [Account.withdrawal, Account.check_locked, hl, hs]
      rw [hstep]
      constructor <;> (dsimp only; omega)

theorem Account.hold_back_lt (a : Account) (amt : Nat)
    (h : a.available < 2 ^ 64 ∧ a.held < 2 ^ 64) :
    ((a.hold_back amt).2).available < 2 ^ 64 ∧ ((a.hold_back amt).2).held < 2 ^ 64 := by
  cases hl : a.locked with
  | true => simpa [Account.hold_back, Account.check_locked, hl] using h
  | false =>
    cases hs : Amount.checked_sub a.available amt with
    | none => simpa [Account.hold_back, Account.check_locked, hl, hs] using h
    | some v =>
      have hv := Amount.checked_sub_le a.available amt v hs
      have hstep : (a.hold_back amt).2
          = { a with available := v, held := Amount.wrapping_add a.held amt } := by
        simp [Account.hold_back, Account.check_locked, hl, hs]
      rw [hstep]
      constructor <;> (dsimp only [Amount.wrapping_add]; omega)

theorem Account.set_free_lt (a : Account) (amt : Nat)
    (h : a.available < 2 ^ 64 ∧ a.held < 2 ^ 64) :
    ((a.set_free amt).2).available < 2 ^ 64 ∧ ((a.set_free amt).2).held < 2 ^ 64 := by
  cases hl : a.locked with
  | true => simpa [Account.set_free, Account.check_locked, hl] using h
  | false =>
    cases hs : Amount.checked_sub a.held amt with
    | none => simpa [Account.set_free, Account.check_locked, hl, hs] using h
    | some v =>
      have hv := Amount.checked_sub_le a.held amt v hs
      have hstep : (a.set_free amt).2
          = { a with held := v, available := Amount.wrapping_add a.available amt } := by
        simp [Account.set_free, Account.check_locked, hl, hs]
      rw [hstep]
      constructor <;> (dsimp only [Amount.wrapping_add]; omega)

theorem Account.charge_back_lt (a : Account) (amt : Nat)
    (h : a.available < 2 ^ 64 ∧ a.held < 2 ^ 64) :
    ((a.charge_back amt).2).available < 2 ^ 64 ∧ ((a.charge_back amt).2).held < 2 ^ 64 := by
  cases hl : a.locked with
  | true => simpa [Account.charge_back, Account.check_locked, hl] using h
  | false =>
    cases hs : Amount.checked_sub a.held amt with
    | none => simpa [Account.charge_back, Account.check_locked, hl, hs] using h
    | some v =>
      have hv := Amount.checked_sub_le a.held amt v hs
      have hstep : (a.charge_back amt).2 = { a with held := v, locked := true } := by
        simp [Account.charge_back, Account.check_locked, hl, hs]
      rw [hstep]
      constructor <;> (dsimp only; omega)

/-- Both raw balances of a reachable account fit in the backing `u64`. -/
theorem reachable_lt (a : Account) (h : ReachableAccount a) :
    a.available < 2 ^ 64 ∧ a.held < 2 ^ 64 := by
  induction h with
  | base id => exact ⟨by norm_num [Account.new], by norm_num [Account.new]⟩
  | dep a amt _ ih => exact Account.deposit_lt a amt ih
  | wd a amt _ ih => exact Account.withdrawal_lt a amt ih
  | hold a amt _ ih => exact Account.hold_back_lt a amt ih
  | free a amt _ ih => exact Account.set_free_lt a amt ih
  | cb a amt _ ih => exact Account.charge_back_lt a amt ih

/-- A reachable account whose raw balances sum past `2^64`: deposit the
maximal raw value, hold it all back, deposit the maximal value again. -/
def wrapAccount : Account :=
  ((((Account.new 0).deposit (2 ^ 64 - 1)).2.hold_back (2 ^ 64 - 1)).2.deposit
    (2 ^ 64 - 1)).2

/-- C1 counterexample: at the reachable account `wrapAccount` (available
and held both `2^64 - 1`), the u64 sum computed by `total()` wraps, so
`total()` does not return `available + held` — the claim's unqualified
equality fails in the release-build wrapping semantics. -/
theorem spec_invariant_nonneg_total_cx :
    ReachableAccount wrapAccount ∧
    wrapAccount.total ≠ wrapAccount.available + wrapAccount.held :=
  ⟨ReachableAccount.dep _ _ (ReachableAccount.hold _ _
      (ReachableAccount.dep _ _ (ReachableAccount.base 0))), by decide⟩

/-- C1 amended: every account reachable from `Account::new` by any
sequence of the five operations (successful or failed) has
`available ≥ 0` and `held ≥ 0` (both raw values moreover fit in the
backing u64), and `total()` returns `(available + held) % 2^64` — exactly
`available + held` whenever that raw sum has not overflowed `2^64`. -/
theorem spec_invariant_nonneg_total (a : Account) (h : ReachableAccount a) :
    0 ≤ a.available ∧ 0 ≤ a.held ∧
    a.available < 2 ^ 64 ∧ a.held < 2 ^ 64 ∧
    a.total = (a.available + a.held) % 2 ^ 64 ∧
    (a.available + a.held < 2 ^ 64 → a.total = a.available + a.held) := by
  obtain ⟨h1, h2⟩ := reachable_lt a h
  exact ⟨Nat.zero_le _, Nat.zero_le _, h1, h2, rfl, fun hlt => Nat.mod_eq_of_lt hlt⟩

theorem spec_invariant_nonneg_total_witness :
    0 ≤ (Account.new 0).available ∧
    (Account.new 0).total = (Account.new 0).available + (Account.new 0).held :=
  ⟨(spec_invariant_nonneg_total (Account.new 0) (ReachableAccount.base 0)).1,
   (spec_invariant_nonneg_total (Account.new 0) (ReachableAccount.base 0)).2.2.2.2.2
     (by decide)⟩

/-! ### Replay of deposit/withdrawal sequences (spec section 8, first bullet) -/

/-- One requested deposit or withdrawal with its amount. -/
inductive DWOp : Type where
  | dep : Nat → DWOp
  | wd : Nat → DWOp
deriving DecidableEq, Repr

/-- Apply one requested operation, keeping whatever state the call leaves
behind (failed calls leave the account as it was). -/
def applyDW (a : Account) : DWOp → Account
  | DWOp.dep amt => (a.deposit amt).2
  | DWOp.wd amt => (a.withdrawal amt).2

/-- Replay a sequence of deposit/withdrawal requests on an account. -/
def replayDW (a : Account) : List DWOp → Account
  | [] => a
  | op :: ops => replayDW (applyDW a op) ops

/-- Sum of the amounts of the deposits that succeed along the replay. -/
def depositsSucc (a : Account) : List DWOp → Nat
  | [] => 0
  | DWOp.dep amt :: ops =>
    (match (a.deposit amt).1 with
     | Except.ok _ => amt
     | Except.error _ => 0) + depositsSucc (applyDW a (DWOp.dep amt)) ops
  | DWOp.wd amt :: ops => depositsSucc (applyDW a (DWOp.wd amt)) ops

/-- Sum of the amounts of the withdrawals that succeed along the replay. -/
def withdrawalsSucc (a : Account) : List DWOp → Nat
  | [] => 0
  | DWOp.dep amt :: ops => withdrawalsSucc (applyDW a (DWOp.dep amt)) ops
  | DWOp.wd amt :: ops =>
    (match (a.withdrawal amt).1 with
     | Except.ok _ => amt
     | Except.error _ => 0) + withdrawalsSucc (applyDW a (DWOp.wd amt)) ops

theorem replayDW_sums (ops : List DWOp) : ∀ a : Account, a.locked = false →
    a.available + depositsSucc a ops < 2 ^ 64 →
    (replayDW a ops).available + withdrawalsSucc a ops
      = a.available + depositsSucc a ops ∧
    withdrawalsSucc a ops ≤ a.available + depositsSucc a ops := by
  induction ops with
  | nil => intro a _ _; simp [replayDW, depositsSucc, withdrawalsSucc]
  | cons op ops ih =>
    intro a hl hov
    cases op with
    | dep amt =>
      have hres : (a.deposit amt).1 = Except.ok () := by
        simp [Account.deposit, Account.check_locked, hl]
      have hlock : (applyDW a (DWOp.dep amt)).locked = false := by
        simp [applyDW, Account.deposit, Account.check_locked, hl]
      have havail : (applyDW a (DWOp.dep amt)).available
          = (a.available + amt) % 2 ^ 64 := by
        simp [applyDW, Account.deposit, Account.check_locked, Amount.wrapping_add, hl]
      simp only [depositsSucc, hres] at hov
      rw [Nat.mod_eq_of_lt (by omega)] at havail
      obtain ⟨h21, h22⟩ := ih (applyDW a (DWOp.dep amt)) hlock (by rw [havail]; omega)
      rw [havail] at h21 h22
      simp only [replayDW, depositsSucc, withdrawalsSucc, hres]
      refine ⟨?_, ?_⟩ <;> omega
    | wd amt =>
      by_cases hle : amt ≤ a.available
      · have hres : (a.withdrawal amt).1 = Except.ok () := by
          simp [Account.withdrawal, Account.check_locked, Amount.checked_sub, hl, hle]
        have hlock : (applyDW a (DWOp.wd amt)).locked = false := by
          simp [applyDW, Account.withdrawal, Account.check_locked, Amount.checked_sub, hl, hle]
        have havail : (applyDW a (DWOp.wd amt)).available = a.available - amt := by
          simp [applyDW, Account.withdrawal, Account.check_locked, Amount.checked_sub, hl, hle]
        simp only [depositsSucc] at hov
        obtain ⟨h21, h22⟩ := ih (applyDW a (DWOp.wd amt)) hlock (by rw [havail]; omega)
        rw [havail] at h21 h22
        simp only [replayDW, depositsSucc, withdrawalsSucc, hres]
        refine ⟨?_, ?_⟩ <;> omega
      · have hres : (a.withdrawal amt).1 = Except.error AccountError.InsufficientFunds := by
          simp [Account.withdrawal, Account.check_locked, Amount.checked_sub, hl, hle]
        have hstep : applyDW a (DWOp.wd amt) = a := by
          simp [applyDW, Account.withdrawal, Account.check_locked, Amount.checked_sub, hl, hle]
        simp only [depositsSucc, hstep] at hov
        obtain ⟨h21, h22⟩ := ih a hl hov
        simp only [replayDW, depositsSucc, withdrawalsSucc, hres, hstep]
        refine ⟨?_, ?_⟩ <;> omega

/-- C7 counterexample: two successful deposits whose raw amounts sum past
`2^64` leave `available` wrapped (raw value 1), not equal to the sum of
the successful deposits minus the sum of the successful withdrawals — the
claim's unrestricted quantifier over sequences fails at overflow. -/
theorem spec_replay_sums_cx :
    ((replayDW (Account.new 0) [DWOp.dep (2 ^ 64 - 1), DWOp.dep 2]).available : Int)
      ≠ (depositsSucc (Account.new 0) [DWOp.dep (2 ^ 64 - 1), DWOp.dep 2] : Int)
        - (withdrawalsSucc (Account.new 0) [DWOp.dep (2 ^ 64 - 1), DWOp.dep 2] : Int) := by
  decide

/-- C7 amended: replaying any finite sequence of deposit and withdrawal
requests from `Account::new` whose successful deposits sum to less than
the `2^64` wrap-around leaves `available` equal to the sum of the
successful deposits minus the sum of the successful withdrawals, and
`available` is never negative at any intermediate point of the replay. -/
theorem spec_replay_sums (id : AccountId) (ops : List DWOp)
    (hov : depositsSucc (Account.new id) ops < 2 ^ 64) :
    ((replayDW (Account.new id) ops).available : Int)
      = (depositsSucc (Account.new id) ops : Int)
        - (withdrawalsSucc (Account.new id) ops : Int) ∧
    ∀ pre suf : List DWOp, ops = pre ++ suf →
      (0 : Int) ≤ ((replayDW (Account.new id) pre).available : Int) := by
  have h0 : (Account.new id).available = 0 := rfl
  have h := replayDW_sums ops (Account.new id) rfl (by rw [h0]; omega)
  refine ⟨?_, ?_⟩
  · have h1 := h.1
    have h2 := h.2
    rw [h0] at h1 h2
    omega
  · intro pre suf _
    exact Int.natCast_nonneg _

theorem spec_replay_sums_witness :
    ((replayDW (Account.new 0) [DWOp.dep 5, DWOp.wd 3]).available : Int)
      = (depositsSucc (Account.new 0) [DWOp.dep 5, DWOp.wd 3] : Int)
        - (withdrawalsSucc (Account.new 0) [DWOp.dep 5, DWOp.wd 3] : Int) ∧
    (0 : Int) ≤ ((replayDW (Account.new 0) [DWOp.dep 5]).available : Int) :=
  ⟨(spec_replay_sums 0 [DWOp.dep 5, DWOp.wd 3] (by decide)).1,
   (spec_replay_sums 0 [DWOp.dep 5, DWOp.wd 3] (by decide)).2 [DWOp.dep 5] [DWOp.wd 3] rfl⟩

/-- C2: on a locked account every operation returns the `Locked` error and
returns the account state completely unchanged (so in particular `locked`
stays `true` under every further operation). -/
theorem spec_locked_rejects_all (a : Account) (amt : Nat) (h : a.locked = true) :
    a.deposit amt = (Except.error AccountError.Locked, a) ∧
    a.withdrawal amt = (Except.error AccountError.Locked, a) ∧
    a.hold_back amt = (Except.error AccountError.Locked, a) ∧
    a.set_free amt = (Except.error AccountError.Locked, a) ∧
    a.charge_back amt = (Except.error AccountError.Locked, a) := by
  refine ⟨?_, ?_, ?_, ?_, ?_⟩ <;>
    simp [Account.deposit, Account.withdrawal, Account.hold_back, Account.set_free,
      Account.charge_back, Account.check_locked, h]

theorem spec_locked_rejects_all_witness :
    (⟨0, 5, 7, true⟩ : Account).deposit 3
      = (Except.error AccountError.Locked, (⟨0, 5, 7, true⟩ : Account)) ∧
    (⟨0, 5, 7, true⟩ : Account).withdrawal 3
      = (Except.error AccountError.Locked, (⟨0, 5, 7, true⟩ : Account)) ∧
    (⟨0, 5, 7, true⟩ : Account).hold_back 3
      = (Except.error AccountError.Locked, (⟨0, 5, 7, true⟩ : Account)) ∧
    (⟨0, 5, 7, true⟩ : Account).set_free 3
      = (Except.error AccountError.Locked, (⟨0, 5, 7, true⟩ : Account)) ∧
    (⟨0, 5, 7, true⟩ : Account).charge_back 3
      = (Except.error AccountError.Locked, (⟨0, 5, 7, true⟩ : Account)) :=
  spec_locked_rejects_all ⟨0, 5, 7, true⟩ 3 rfl

/-- C3: on an unlocked account, `charge_back amount` succeeds iff
`amount ≤ held`; on success it subtracts `amount` from `held`, leaves
`available` untouched and sets `locked := true`; on failure it returns
`InsufficientFunds` and leaves the account unchanged (hence unlocked). -/
theorem spec_charge_back (a : Account) (amt : Nat) (h : a.locked = false) :
    ((a.charge_back amt).1 = Except.ok () ↔ amt ≤ a.held) ∧
    (amt ≤ a.held →
      a.charge_back amt =
        (Except.ok (), { a with held := a.held - amt, locked := true })) ∧
    (a.held < amt →
      a.charge_back amt = (Except.error AccountError.InsufficientFunds, a)) := by
  by_cases hle : amt ≤ a.held
  · simp [Account.charge_back, Account.check_locked, Amount.checked_sub, h, hle]
  · simp [Account.charge_back, Account.check_locked, Amount.checked_sub, h, hle]

theorem spec_charge_back_witness :
    ((⟨0, 7, 50, false⟩ : Account).charge_back 20
        = (Except.ok (), (⟨0, 7, 30, true⟩ : Account))) ∧
    ((⟨0, 7, 50, false⟩ : Account).charge_back 60
        = (Except.error AccountError.InsufficientFunds, (⟨0, 7, 50, false⟩ : Account))) :=
  ⟨(spec_charge_back ⟨0, 7, 50, false⟩ 20 rfl).2.1 (by decide),
   (spec_charge_back ⟨0, 7, 50, false⟩ 60 rfl).2.2 (by decide)⟩

/-- C4: every account operation that returns an error leaves the account
state completely unchanged — the whole operation applies or none of it
does, and no partial application is observable. -/
theorem spec_ops_atomic_on_error (a : Account) (amt : Nat) (e : AccountError) :
    ((a.deposit amt).1 = Except.error e → (a.deposit amt).2 = a) ∧
    ((a.withdrawal amt).1 = Except.error e → (a.withdrawal amt).2 = a) ∧
    ((a.hold_back amt).1 = Except.error e → (a.hold_back amt).2 = a) ∧
    ((a.set_free amt).1 = Except.error e → (a.set_free amt).2 = a) ∧
    ((a.charge_back amt).1 = Except.error e → (a.charge_back amt).2 = a) :=
  ⟨Account.deposit_error_eq a amt e, Account.withdrawal_error_eq a amt e,
   Account.hold_back_error_eq a amt e, Account.set_free_error_eq a amt e,
   Account.charge_back_error_eq a amt e⟩

theorem spec_ops_atomic_on_error_witness :
    ((⟨0, 5, 7, true⟩ : Account).deposit 3).2 = (⟨0, 5, 7, true⟩ : Account) ∧
    ((⟨0, 5, 7, true⟩ : Account).withdrawal 3).2 = (⟨0, 5, 7, true⟩ : Account) ∧
    ((⟨0, 5, 7, true⟩ : Account).hold_back 3).2 = (⟨0, 5, 7, true⟩ : Account) ∧
    ((⟨0, 5, 7, true⟩ : Account).set_free 3).2 = (⟨0, 5, 7, true⟩ : Account) ∧
    ((⟨0, 5, 7, true⟩ : Account).charge_back 3).2 = (⟨0, 5, 7, true⟩ : Account) :=
  ⟨(spec_ops_atomic_on_error ⟨0, 5, 7, true⟩ 3 AccountError.Locked).1 rfl,
   (spec_ops_atomic_on_error ⟨0, 5, 7, true⟩ 3 AccountError.Locked).2.1 rfl,
   (spec_ops_atomic_on_error ⟨0, 5, 7, true⟩ 3 AccountError.Locked).2.2.1 rfl,
   (spec_ops_atomic_on_error ⟨0, 5, 7, true⟩ 3 AccountError.Locked).2.2.2.1 rfl,
   (spec_ops_atomic_on_error ⟨0, 5, 7, true⟩ 3 AccountError.Locked).2.2.2.2 rfl⟩

/-! ### Engine-level claims -/

/-- C8: a Dispute record that passes the log lookup, deposit-type and
duplicate checks, but whose `hold_back` call fails, propagates the
account-level error while the referenced transaction id stays inserted in
the open-disputes set; the account and the transaction log are unchanged. -/
theorem spec_dispute_open_after_failed_hold (e : TransactionEngine) (t tr : Transaction)
    (amt : Nat) (acc : Account) (err : AccountError)
    (ht : t.transaction_type = TransactionType.Dispute)
    (hlog : e.transactions t.id = some tr)
    (htr : tr.transaction_type = TransactionType.Deposit)
    (hamt : tr.amount = some amt)
    (hd : e.disputes tr.id = false)
    (hacc : e.accounts tr.client = some acc)
    (herr : (acc.hold_back amt).1 = Except.error err) :
    (e.handle_transaction t).1 = Except.error (TransactionError.Account err) ∧
    (e.handle_transaction t).2.disputes tr.id = true ∧
    (e.handle_transaction t).2.accounts tr.client = some acc ∧
    (e.handle_transaction t).2.transactions = e.transactions := by
  have hstate := Account.hold_back_error_eq acc amt err herr
  simp only [TransactionEngine.handle_transaction, TransactionEngine.save_transaction,
    TransactionEngine.accountCall, TransactionEngine.liftAccErr, ht, hlog, hamt, htr,
    hd, hacc, herr, hstate, Option.getD_some]
  simp [hstate, herr, TransactionEngine.liftAccErr]

/-- The engine after `deposit client 1 tx 1 amount 50` and
`withdrawal client 1 tx 2 amount 50`: available funds are back to zero,
so a dispute of tx 1 fails at `hold_back`. -/
def drainedEngine : TransactionEngine :=
  ((TransactionEngine.new.handle_transaction
      { id := 1, transaction_type := TransactionType.Deposit, client := 1, amount := some 50 }
    ).2.handle_transaction
      { id := 2, transaction_type := TransactionType.Withdrawal, client := 1, amount := some 50 }
  ).2

theorem spec_dispute_open_after_failed_hold_witness :
    (drainedEngine.handle_transaction
        { id := 1, transaction_type := TransactionType.Dispute, client := 1, amount := none }
      ).1 = Except.error (TransactionError.Account AccountError.InsufficientFunds) ∧
    (drainedEngine.handle_transaction
        { id := 1, transaction_type := TransactionType.Dispute, client := 1, amount := none }
      ).2.disputes 1 = true ∧
    (drainedEngine.handle_transaction
        { id := 1, transaction_type := TransactionType.Dispute, client := 1, amount := none }
      ).2.accounts 1 = some { id := 1, available := 0, held := 0, locked := false } ∧
    (drainedEngine.handle_transaction
        { id := 1, transaction_type := TransactionType.Dispute, client := 1, amount := none }
      ).2.transactions = drainedEngine.transactions :=
  spec_dispute_open_after_failed_hold drainedEngine
    { id := 1, transaction_type := TransactionType.Dispute, client := 1, amount := none }
    { id := 1, transaction_type := TransactionType.Deposit, client := 1, amount := some 50 }
    50 { id := 1, available := 0, held := 0, locked := false } AccountError.InsufficientFunds
    rfl rfl rfl rfl rfl rfl rfl

/-- C5 counterexample: a Resolve record whose referenced transaction id is
not in the open-disputes set — because it was never logged at all — is
answered with `TransactionNotFound`, not with the `UnknownDispute` error
the claim requires for every id outside the open-disputes set. -/
theorem spec_unknown_dispute_cx :
    (TransactionEngine.new.handle_transaction
        { id := 1, transaction_type := TransactionType.Resolve, client := 1, amount := none }).1
      = Except.error TransactionError.TransactionNotFound ∧
    (Except.error TransactionError.TransactionNotFound : Except TransactionError Unit)
      ≠ Except.error TransactionError.UnknownDispute ∧
    TransactionEngine.new.disputes 1 = false := by
  refine ⟨rfl, by simp, rfl⟩

/-- C5 amended: for a Resolve or Chargeback record whose referenced id is
present in the transaction log with an amount, `handle_transaction` returns
`UnknownDispute` when the logged id is not in the open-disputes set; when
it is, a Resolve removes it from the set and calls `set_free` with the
logged transaction's amount on the logged transaction's client account. -/
theorem spec_unknown_dispute_amended (e : TransactionEngine) (t tr : Transaction) (amt : Nat)
    (ht : t.transaction_type = TransactionType.Resolve ∨
      t.transaction_type = TransactionType.Chargeback)
    (hlog : e.transactions t.id = some tr)
    (hamt : tr.amount = some amt) :
    (e.disputes tr.id = false →
      (e.handle_transaction t).1 = Except.error TransactionError.UnknownDispute) ∧
    (e.disputes tr.id = true → t.transaction_type = TransactionType.Resolve →
      (e.handle_transaction t).2.disputes tr.id = false ∧
      (e.handle_transaction t).2.accounts tr.client =
        some (((e.accounts tr.client).getD (Account.new tr.client)).set_free amt).2 ∧
      (e.handle_transaction t).1 =
        TransactionEngine.liftAccErr
          (((e.accounts tr.client).getD (Account.new tr.client)).set_free amt).1) := by
  rcases ht with ht | ht
  · constructor
    · intro hd
      simp [TransactionEngine.handle_transaction, TransactionEngine.save_transaction,
        ht, hlog, hamt, hd]
    · intro hd _
      simp [TransactionEngine.handle_transaction, TransactionEngine.save_transaction,
        TransactionEngine.accountCall, ht, hlog, hamt, hd]
  · constructor
    · intro hd
      simp [TransactionEngine.handle_transaction, TransactionEngine.save_transaction,
        ht, hlog, hamt, hd]
    · intro _ hres
      rw [ht] at hres
      exact absurd hres (by simp)

/-- The engine after `deposit client 1 tx 1 amount 50`. -/
def oneDepositEngine : TransactionEngine :=
  (TransactionEngine.new.handle_transaction
    { id := 1, transaction_type := TransactionType.Deposit, client := 1, amount := some 50 }).2

/-- State of `oneDepositEngine` after a successful dispute of tx 1. -/
def oneDisputeEngine : TransactionEngine :=
  (oneDepositEngine.handle_transaction
    { id := 1, transaction_type := TransactionType.Dispute, client := 1, amount := none }).2

theorem spec_unknown_dispute_amended_witness :
    (oneDepositEngine.handle_transaction
        { id := 1, transaction_type := TransactionType.Resolve, client := 1, amount := none }
      ).1 = Except.error TransactionError.UnknownDispute ∧
    (oneDisputeEngine.handle_transaction
        { id := 1, transaction_type := TransactionType.Resolve, client := 1, amount := none }
      ).2.disputes 1 = false :=
  ⟨(spec_unknown_dispute_amended oneDepositEngine
      { id := 1, transaction_type := TransactionType.Resolve, client := 1, amount := none }
      { id := 1, transaction_type := TransactionType.Deposit, client := 1, amount := some 50 }
      50 (Or.inl rfl) rfl rfl).1 rfl,
   ((spec_unknown_dispute_amended oneDisputeEngine
      { id := 1, transaction_type := TransactionType.Resolve, client := 1, amount := none }
      { id := 1, transaction_type := TransactionType.Deposit, client := 1, amount := some 50 }
      50 (Or.inl rfl) rfl rfl).2 rfl rfl).1⟩

/-- C6 counterexample: a Dispute record sent with client id 2 but
referencing client 1's logged deposit succeeds, operates on client 1's
account (held goes up by the deposit amount) and never creates an account
for client 2 — the account acted on is the logged transaction's client,
not the incoming record's own client id. -/
theorem spec_target_client_cx :
    (oneDepositEngine.handle_transaction
        { id := 1, transaction_type := TransactionType.Dispute, client := 2, amount := none }
      ).1 = Except.ok () ∧
    (oneDepositEngine.handle_transaction
        { id := 1, transaction_type := TransactionType.Dispute, client := 2, amount := none }
      ).2.accounts 2 = none ∧
    (oneDepositEngine.handle_transaction
        { id := 1, transaction_type := TransactionType.Dispute, client := 2, amount := none }
      ).2.accounts 1 = some { id := 1, available := 0, held := 50, locked := false } :=
  ⟨rfl, rfl, rfl⟩

/-- C6 amended: the account looked up (or lazily created) and operated on
is the one for the client id of the transaction stored in the log under
the incoming record's transaction id — for Deposit/Withdrawal records that
is the record itself, so its own client id; for the other types it is the
referenced transaction's client.  No account at any other id is created or
modified. -/
theorem spec_target_client_amended (e : TransactionEngine) (t tr : Transaction) (amt : Nat) :
    ((t.transaction_type = TransactionType.Deposit ∨
        t.transaction_type = TransactionType.Withdrawal) →
      e.transactions t.id = none →
      (TransactionEngine.save_transaction e t).2.transactions t.id = some t) ∧
    ((TransactionEngine.save_transaction e t).1 = Except.ok () →
      (TransactionEngine.save_transaction e t).2.transactions t.id = some tr →
      tr.amount = some amt →
      ((e.handle_transaction t).2.accounts tr.client).isSome = true ∧
      ∀ j, j ≠ tr.client → (e.handle_transaction t).2.accounts j = e.accounts j) := by
  constructor
  · rintro (htt | htt) htid <;> simp [TransactionEngine.save_transaction, htt, htid]
  · intro hsave hlog hamt
    cases htt : t.transaction_type
    case Deposit =>
      cases htid : e.transactions t.id with
      | some tx0 => simp [TransactionEngine.save_transaction, htt, htid] at hsave
      | none =>
        have htr : tr = t := by
          simp [TransactionEngine.save_transaction, htt, htid] at hlog
          exact hlog.symm
        subst htr
        refine ⟨?_, ?_⟩
        · simp [TransactionEngine.handle_transaction, TransactionEngine.save_transaction,
            htt, htid, hamt, TransactionEngine.accountCall]
        · intro j hj
          simp [TransactionEngine.handle_transaction, TransactionEngine.save_transaction,
            htt, htid, hamt, TransactionEngine.accountCall, hj]
    case Withdrawal =>
      cases htid : e.transactions t.id with
      | some tx0 => simp [TransactionEngine.save_transaction, htt, htid] at hsave
      | none =>
        have htr : tr = t := by
          simp [TransactionEngine.save_transaction, htt, htid] at hlog
          exact hlog.symm
        subst htr
        refine ⟨?_, ?_⟩
        · simp [TransactionEngine.handle_transaction, TransactionEngine.save_transaction,
            htt, htid, hamt, TransactionEngine.accountCall]
        · intro j hj
          simp [TransactionEngine.handle_transaction, TransactionEngine.save_transaction,
            htt, htid, hamt, TransactionEngine.accountCall, hj]
    case Dispute =>
      rw [show (TransactionEngine.save_transaction e t).2 = e by
        simp [TransactionEngine.save_transaction, htt]] at hlog
      refine ⟨?_, ?_⟩
      · simp only [TransactionEngine.handle_transaction, TransactionEngine.save_transaction,
          htt, hlog, hamt, TransactionEngine.accountCall]
        split_ifs <;> simp
      · intro j hj
        simp only [TransactionEngine.handle_transaction, TransactionEngine.save_transaction,
          htt, hlog, hamt, TransactionEngine.accountCall]
        split_ifs <;> simp [hj]
    case Resolve =>
      rw [show (TransactionEngine.save_transaction e t).2 = e by
        simp [TransactionEngine.save_transaction, htt]] at hlog
      refine ⟨?_, ?_⟩
      · simp only [TransactionEngine.handle_transaction, TransactionEngine.save_transaction,
          htt, hlog, hamt, TransactionEngine.accountCall]
        split_ifs <;> simp
      · intro j hj
        simp only [TransactionEngine.handle_transaction, TransactionEngine.save_transaction,
          htt, hlog, hamt, TransactionEngine.accountCall]
        split_ifs <;> simp [hj]
    case Chargeback =>
      rw [show (TransactionEngine.save_transaction e t).2 = e by
        simp [TransactionEngine.save_transaction, htt]] at hlog
      refine ⟨?_, ?_⟩
      · simp only [TransactionEngine.handle_transaction, TransactionEngine.save_transaction,
          htt, hlog, hamt, TransactionEngine.accountCall]
        split_ifs
        · cases hcb : (((e.accounts tr.client).getD (Account.new tr.client)).charge_back amt).1 <;>
            simp [hcb]
        · simp
      · intro j hj
        simp only [TransactionEngine.handle_transaction, TransactionEngine.save_transaction,
          htt, hlog, hamt, TransactionEngine.accountCall]
        split_ifs
        · cases hcb : (((e.accounts tr.client).getD (Account.new tr.client)).charge_back amt).1 <;>
            simp [hcb, hj]
        · simp [hj]

theorem spec_target_client_amended_witness :
    (TransactionEngine.save_transaction TransactionEngine.new
        { id := 1, transaction_type := TransactionType.Deposit, client := 1, amount := some 50 }
      ).2.transactions 1 = some
        { id := 1, transaction_type := TransactionType.Deposit, client := 1, amount := some 50 } ∧
    ((TransactionEngine.new.handle_transaction
        { id := 1, transaction_type := TransactionType.Deposit, client := 1, amount := some 50 }
      ).2.accounts 1).isSome = true :=
  ⟨(spec_target_client_amended TransactionEngine.new
      { id := 1, transaction_type := TransactionType.Deposit, client := 1, amount := some 50 }
      { id := 1, transaction_type := TransactionType.Deposit, client := 1, amount := some 50 }
      50).1 (Or.inl rfl) rfl,
   ((spec_target_client_amended TransactionEngine.new
      { id := 1, transaction_type := TransactionType.Deposit, client := 1, amount := some 50 }
      { id := 1, transaction_type := TransactionType.Deposit, client := 1, amount := some 50 }
      50).2 rfl rfl rfl).1⟩

/-- C10: a Deposit or Withdrawal record with no amount is answered with
`TransactionAmountNotSpecified`, but only after the record has been
inserted into the transaction log under its id; a later Deposit/Withdrawal
reusing that id therefore fails with `DuplicateTransaction`, and a Dispute
referencing that id fails with `TransactionAmountNotSpecified` instead of
opening a dispute. -/
theorem spec_amountless_record_logged (e : TransactionEngine) (t : Transaction)
    (ht : t.transaction_type = TransactionType.Deposit ∨
      t.transaction_type = TransactionType.Withdrawal)
    (hamt : t.amount = none)
    (hfresh : e.transactions t.id = none) :
    (e.handle_transaction t).1 = Except.error TransactionError.TransactionAmountNotSpecified ∧
    (e.handle_transaction t).2.transactions t.id = some t ∧
    (∀ t2 : Transaction,
      (t2.transaction_type = TransactionType.Deposit ∨
        t2.transaction_type = TransactionType.Withdrawal) →
      t2.id = t.id →
      ((e.handle_transaction t).2.handle_transaction t2).1 =
        Except.error TransactionError.DuplicateTransaction) ∧
    (∀ t3 : Transaction, t3.transaction_type = TransactionType.Dispute → t3.id = t.id →
      ((e.handle_transaction t).2.handle_transaction t3).1 =
        Except.error TransactionError.TransactionAmountNotSpecified) := by
  have hE : (e.handle_transaction t).2
      = { e with transactions := fun j => if j = t.id then some t else e.transactions j } ∧
      (e.handle_transaction t).1
        = Except.error TransactionError.TransactionAmountNotSpecified := by
    rcases ht with htt | htt <;>
      simp [TransactionEngine.handle_transaction, TransactionEngine.save_transaction,
        htt, hfresh, hamt]
  refine ⟨hE.2, ?_, ?_, ?_⟩
  · rw [hE.1]; simp
  · intro t2 ht2 hid2
    rcases ht2 with htt2 | htt2 <;>
      · rw [hE.1]
        simp [TransactionEngine.handle_transaction, TransactionEngine.save_transaction,
          htt2, hid2]
  · intro t3 ht3 hid3
    rw [hE.1]
    simp [TransactionEngine.handle_transaction, TransactionEngine.save_transaction,
      ht3, hid3, hamt]

theorem spec_amountless_record_logged_witness :
    ((TransactionEngine.new.handle_transaction
        { id := 7, transaction_type := TransactionType.Deposit, client := 3, amount := none }
      ).2.handle_transaction
        { id := 7, transaction_type := TransactionType.Withdrawal, client := 3, amount := some 5 }
      ).1 = Except.error TransactionError.DuplicateTransaction ∧
    ((TransactionEngine.new.handle_transaction
        { id := 7, transaction_type := TransactionType.Deposit, client := 3, amount := none }
      ).2.handle_transaction
        { id := 7, transaction_type := TransactionType.Dispute, client := 3, amount := none }
      ).1 = Except.error TransactionError.TransactionAmountNotSpecified :=
  ⟨(spec_amountless_record_logged TransactionEngine.new
      { id := 7, transaction_type := TransactionType.Deposit, client := 3, amount := none }
      (Or.inl rfl) rfl rfl).2.2.1
      { id := 7, transaction_type := TransactionType.Withdrawal, client := 3, amount := some 5 }
      (Or.inr rfl) rfl,
   (spec_amountless_record_logged TransactionEngine.new
      { id := 7, transaction_type := TransactionType.Deposit, client := 3, amount := none }
      (Or.inl rfl) rfl rfl).2.2.2
      { id := 7, transaction_type := TransactionType.Dispute, client := 3, amount := none }
      rfl rfl⟩

/-! ### Fixed-point representation of amounts (src/lib.rs, src/transaction.rs)

`Amount` is `fixed::types::U50F14` (binary fixed point, 14 fractional
bits); the `amount` field of `Transaction` is parsed as
`fixed::types::U51F13` (13 fractional bits).  Parsing decimal text rounds
to the nearest representable value, ties to even.  A decimal with up to
four fractional digits is modelled by its numerator `n` over `10^4`, and a
fixed-point value by its raw integer (the value scaled by `2^fracBits`). -/

/-- Round `n / 10000` to the nearest multiple of `2 ^ (- fracBits)`,
ties to even, returning the raw fixed-point integer. -/
def parseFixed (fracBits n : Nat) : Nat :=
  let num := n * 2 ^ fracBits
  let q := num / 10000
  let r := num % 10000
  if 2 * r < 10000 then q
  else if 10000 < 2 * r then q + 1
  else if q % 2 = 0 then q else q + 1

/-- Parsing a four-digit decimal into the account balance type `U50F14`. -/
def parseU50F14 (n : Nat) : Nat := parseFixed 14 n

/-- Parsing a four-digit decimal into the transaction amount type `U51F13`. -/
def parseU51F13 (n : Nat) : Nat := parseFixed 13 n

/-- C9 counterexample: the decimal 0.0001 (numerator 1 over `10^4`) is not
represented exactly by parsing — in either fixed-point type the parsed raw
value `k` fails `k * 10^4 = n * 2^fracBits` — and the two distinct
four-digit decimals 0.0002 and 0.0003 parse to the *same* `U51F13` value,
so the transaction amount type does not even hold 4 decimal digits of
precision. -/
theorem spec_amount_precision_cx :
    parseU51F13 2 = parseU51F13 3 ∧ (2 : Nat) ≠ 3 ∧
    parseU51F13 1 * 10000 ≠ 1 * 2 ^ 13 ∧
    parseU50F14 1 * 10000 ≠ 1 * 2 ^ 14 := by decide

theorem parseU50F14_err_le (n : Nat) :
    n * 16384 ≤ parseU50F14 n * 10000 + 5000 ∧
    parseU50F14 n * 10000 ≤ n * 16384 + 5000 := by
  unfold parseU50F14 parseFixed
  have h14 : (2 : Nat) ^ 14 = 16384 := by norm_num
  rw [h14]
  have hdm := Nat.div_add_mod (n * 16384) 10000
  have hlt : n * 16384 % 10000 < 10000 := Nat.mod_lt _ (by norm_num)
  dsimp only
  split_ifs <;> omega

/-- C9 amended: amounts are *binary* fixed point.  Parsing into the
account balance type `U50F14` (resolution `2^-14 < 10^-4`) is injective on
decimals with up to 4 fractional digits — distinct decimals stay distinct,
though (by the counterexample) generally inexact, and the transaction
amount type `U51F13` conflates even some distinct four-digit decimals.
Checked subtraction on raw fixed-point values, when it succeeds, exactly
inverts addition, with no rounding. -/
theorem spec_amount_precision_amended :
    (∀ n m : Nat, parseU50F14 n = parseU50F14 m → n = m) ∧
    (∀ a b c : Nat, Amount.checked_sub a b = some c → c + b = a) := by
  constructor
  · intro n m h
    have hn := parseU50F14_err_le n
    have hm := parseU50F14_err_le m
    rw [h] at hn
    omega
  · intro a b c h
    unfold Amount.checked_sub at h
    split_ifs at h with hle
    injection h with h2
    omega

theorem spec_amount_precision_amended_witness :
    (3 : Nat) = 3 ∧ (6 : Nat) + 4 = 10 :=
  ⟨spec_amount_precision_amended.1 3 3 rfl,
   spec_amount_precision_amended.2 10 4 6 rfl⟩
